import Mathlib

/-!
Verification of the olive-grove cover-crop water-balance engine
(`app_streamlit.py`).  The mathematical engine of the script is a pure
arithmetic pipeline over the four inputs supplied by the sidebar
controls; we embed it over `ℚ`, since every constant in the source is an
exact decimal.  The sidebar's selectbox offers exactly the three labels
"Early (March)", "Late (May)" and "Unmowed", so the source's substring
tests on the label are embedded as an exhaustive match on a three-value
enum.
-/

namespace WaterBalance

/-- The three options of the sidebar selectbox `Mowing Timing`. -/
inductive MowingTime where
  | early
  | late
  | unmowed
deriving DecidableEq, Repr

/-- The four sidebar inputs: `rainfall` (slider 200–800), `cover_pct`
(slider 0–100), `mowing_time` (selectbox), `climate_change` (checkbox). -/
structure Input where
  rainfall : ℚ
  cover_pct : ℚ
  mowing_time : MowingTime
  climate_change : Bool
deriving DecidableEq, Repr

/-- The slider bounds of the sidebar: rainfall in [200, 800] and cover
percentage in [0, 100]. -/
def Input.valid (i : Input) : Prop :=
  200 ≤ i.rainfall ∧ i.rainfall ≤ 800 ∧ 0 ≤ i.cover_pct ∧ i.cover_pct ≤ 100

instance (i : Input) : Decidable i.valid := by
  unfold Input.valid; infer_instance

/-- `actual_rainfall = rainfall * 0.9 if climate_change else rainfall`. -/
def actual_rainfall (i : Input) : ℚ :=
  if i.climate_change then i.rainfall * 0.9 else i.rainfall

/-- `base_runoff_pct = 0.30 if climate_change else 0.20`. -/
def base_runoff_pct (i : Input) : ℚ :=
  if i.climate_change then 0.30 else 0.20

/-- `runoff_reduction = (cover_pct / 10) * 0.01`. -/
def runoff_reduction (i : Input) : ℚ :=
  (i.cover_pct / 10) * 0.01

/-- `final_runoff_pct = max(0.05, base_runoff_pct - runoff_reduction)`. -/
def final_runoff_pct (i : Input) : ℚ :=
  max 0.05 (base_runoff_pct i - runoff_reduction i)

/-- `runoff_mm = actual_rainfall * final_runoff_pct`. -/
def runoff_mm (i : Input) : ℚ :=
  actual_rainfall i * final_runoff_pct i

/-- `base_evap = 120`. -/
def base_evap : ℚ := 120

/-- `evap_savings` is `(cover_pct / 30) * 16.5` when the selected label
contains "Early" or "Late" (so for the labels "Early (March)" and
"Late (May)"), and the initial `0` for "Unmowed". -/
def evap_savings (i : Input) : ℚ :=
  match i.mowing_time with
  | .early => (i.cover_pct / 30) * 16.5
  | .late => (i.cover_pct / 30) * 16.5
  | .unmowed => 0

/-- `evap_mm = max(30, base_evap - evap_savings)`. -/
def evap_mm (i : Input) : ℚ :=
  max 30 (base_evap - evap_savings i)

/-- `transp_mm`: `(cover_pct / 50) * 70` for "Early (March)",
`(cover_pct / 50) * 110` for "Late (May)", `(cover_pct / 50) * 150`
otherwise. -/
def transp_mm (i : Input) : ℚ :=
  match i.mowing_time with
  | .early => (i.cover_pct / 50) * 70
  | .late => (i.cover_pct / 50) * 110
  | .unmowed => (i.cover_pct / 50) * 150

/-- `net_water = actual_rainfall - runoff_mm - evap_mm - transp_mm`. -/
def net_water (i : Input) : ℚ :=
  actual_rainfall i - runoff_mm i - evap_mm i - transp_mm i

/-- `yield_kg = max(0, (10 * net_water) - 1300)`. -/
def yield_kg (i : Input) : ℚ :=
  max 0 ((10 * net_water i) - 1300)

/-- `erosion_rate = 3.0 if climate_change else 2.0`, overwritten with
`0.2` when `cover_pct >= 30`. -/
def erosion_rate (i : Input) : ℚ :=
  let r : ℚ := if i.climate_change then 3.0 else 2.0
  if 30 ≤ i.cover_pct then 0.2 else r

/-- The loop `for y in range(1, 20): soil_depth.append(soil_depth[-1] -
erosion_rate)` starting from `soil_depth = [1000]`; `soil_depth_loop rate n`
is the list after `n` iterations.  The list is never empty, so the
default of `getLastD` (the Python `soil_depth[-1]`) is never used. -/
def soil_depth_loop (rate : ℚ) : Nat → List ℚ
  | 0 => [1000]
  | n + 1 =>
      soil_depth_loop rate n ++ [(soil_depth_loop rate n).getLastD 0 - rate]

/-- The final `soil_depth` list: 19 loop iterations after the start value. -/
def soil_depth (i : Input) : List ℚ :=
  soil_depth_loop (erosion_rate i) 19

/-- The whole engine output: the scalar outputs rendered by the metric
widgets and bar chart, plus the soil depth series of the line chart. -/
structure Output where
  actual_rainfall : ℚ
  runoff_mm : ℚ
  evap_mm : ℚ
  transp_mm : ℚ
  net_water : ℚ
  yield_kg : ℚ
  erosion_rate : ℚ
  soil_depth : List ℚ
deriving DecidableEq, Repr

/-- The engine as a single total function from inputs to outputs.  The
script computes each field unconditionally from the slider values; no
branch rejects or fails. -/
def compute (i : Input) : Output :=
  { actual_rainfall := actual_rainfall i
    runoff_mm := runoff_mm i
    evap_mm := evap_mm i
    transp_mm := transp_mm i
    net_water := net_water i
    yield_kg := yield_kg i
    erosion_rate := erosion_rate i
    soil_depth := soil_depth i }

/-- Closed form of the `k`-th entry of the soil depth list. -/
def soil_entry (rate : ℚ) (k : Nat) : ℚ := 1000 - (k : ℚ) * rate

/-- Closed form of the loop: after `n` iterations the list is
`[1000 - 0*rate, …, 1000 - n*rate]`. -/
theorem soil_depth_loop_eq (rate : ℚ) (n : Nat) :
    soil_depth_loop rate n = (List.range (n + 1)).map (soil_entry rate) := by
  induction n with
  | zero =>
      simp [soil_depth_loop, soil_entry, List.range_succ]
  | succ n ih =>
      rw [soil_depth_loop, ih, List.range_succ (n := n + 1), List.map_append]
      have hlast :
          ((List.range (n + 1)).map (soil_entry rate)).getLastD 0
            = soil_entry rate n := by
        rw [List.range_succ, List.map_append]
        simp
      rw [hlast]
      simp only [List.map_cons, List.map_nil]
      congr 1
      simp only [soil_entry]
      push_cast
      ring_nf

/-- The soil depth list always has 20 entries. -/
theorem soil_depth_length (i : Input) : (soil_depth i).length = 20 := by
  rw [soil_depth, soil_depth_loop_eq]
  simp

/-- The `k`-th entry of the soil depth list, for `k < 20`. -/
theorem soil_depth_getD (i : Input) (k : Nat) (hk : k < 20) :
    (soil_depth i).getD k 0 = 1000 - (k : ℚ) * erosion_rate i := by
  rw [soil_depth, soil_depth_loop_eq]
  have hk' : k < ((List.range (19 + 1)).map (soil_entry (erosion_rate i))).length := by
    simpa using hk
  rw [List.getD_eq_getElem _ _ hk', List.getElem_map]
  simp [soil_entry]

/-- C1: for rainfall=400, cover=30, timing=Early, climate=false the engine
computes actualRainfall=400, baseRunoffPct=0.20, runoffReduction=0.03,
finalRunoffPct=0.17, runoffMm=68, evapSavings=16.5, evapMm=103.5,
transpMm=42, netWater=186.5, yieldKg=565 and erosionRate=0.2. -/
theorem scenarioA_values :
    actual_rainfall ⟨400, 30, .early, false⟩ = 400 ∧
    base_runoff_pct ⟨400, 30, .early, false⟩ = 0.20 ∧
    runoff_reduction ⟨400, 30, .early, false⟩ = 0.03 ∧
    final_runoff_pct ⟨400, 30, .early, false⟩ = 0.17 ∧
    runoff_mm ⟨400, 30, .early, false⟩ = 68 ∧
    evap_savings ⟨400, 30, .early, false⟩ = 16.5 ∧
    evap_mm ⟨400, 30, .early, false⟩ = 103.5 ∧
    transp_mm ⟨400, 30, .early, false⟩ = 42 ∧
    net_water ⟨400, 30, .early, false⟩ = 186.5 ∧
    yield_kg ⟨400, 30, .early, false⟩ = 565 ∧
    erosion_rate ⟨400, 30, .early, false⟩ = 0.2 := by
  norm_num [actual_rainfall, base_runoff_pct, runoff_reduction, final_runoff_pct,
    runoff_mm, base_evap, evap_savings, evap_mm, transp_mm, net_water, yield_kg,
    erosion_rate, max_def]

/-- C2: for rainfall=400, cover=0, timing=Unmowed, climate=true the engine
computes actualRainfall=360, baseRunoffPct=0.30, runoffReduction=0,
finalRunoffPct=0.30, runoffMm=108, evapSavings=0, evapMm=120, transpMm=0,
netWater=132, yieldKg=20 and erosionRate=3.0. -/
theorem scenarioB_values :
    actual_rainfall ⟨400, 0, .unmowed, true⟩ = 360 ∧
    base_runoff_pct ⟨400, 0, .unmowed, true⟩ = 0.30 ∧
    runoff_reduction ⟨400, 0, .unmowed, true⟩ = 0 ∧
    final_runoff_pct ⟨400, 0, .unmowed, true⟩ = 0.30 ∧
    runoff_mm ⟨400, 0, .unmowed, true⟩ = 108 ∧
    evap_savings ⟨400, 0, .unmowed, true⟩ = 0 ∧
    evap_mm ⟨400, 0, .unmowed, true⟩ = 120 ∧
    transp_mm ⟨400, 0, .unmowed, true⟩ = 0 ∧
    net_water ⟨400, 0, .unmowed, true⟩ = 132 ∧
    yield_kg ⟨400, 0, .unmowed, true⟩ = 20 ∧
    erosion_rate ⟨400, 0, .unmowed, true⟩ = 3.0 := by
  norm_num [actual_rainfall, base_runoff_pct, runoff_reduction, final_runoff_pct,
    runoff_mm, base_evap, evap_savings, evap_mm, transp_mm, net_water, yield_kg,
    erosion_rate, max_def]

/-- C3: for every valid input (rainfall in [200, 800], cover in [0, 100]),
the evaporation is at least 30, the yield is at least 0 and the final
runoff fraction is at least 0.05. -/
theorem invariants_floors (i : Input) (h : i.valid) :
    30 ≤ evap_mm i ∧ 0 ≤ yield_kg i ∧ 0.05 ≤ final_runoff_pct i := by
  refine ⟨?_, ?_, ?_⟩
  · simp only [evap_mm]
    exact le_max_left _ _
  · simp only [yield_kg]
    exact le_max_left _ _
  · simp only [final_runoff_pct]
    exact le_max_left _ _

/-- Witness for C3 at rainfall=400, cover=30, Early, climate off. -/
theorem invariants_floors_witness :
    30 ≤ evap_mm ⟨400, 30, .early, false⟩ ∧ 0 ≤ yield_kg ⟨400, 30, .early, false⟩ ∧
      0.05 ≤ final_runoff_pct ⟨400, 30, .early, false⟩ :=
  invariants_floors ⟨400, 30, .early, false⟩ (by norm_num [Input.valid])

/-- C4: for every valid input the soil depth series has exactly 20
entries, its first entry is 1000, and each later entry is the previous
one minus the input's constant erosion rate. -/
theorem soil_series_spec (i : Input) (h : i.valid) :
    (soil_depth i).length = 20 ∧ (soil_depth i).getD 0 0 = 1000 ∧
    ∀ n : Nat, n + 1 < 20 →
      (soil_depth i).getD (n + 1) 0 = (soil_depth i).getD n 0 - erosion_rate i := by
  refine ⟨soil_depth_length i, ?_, ?_⟩
  · rw [soil_depth_getD i 0 (by norm_num)]
    norm_num
  · intro n hn
    rw [soil_depth_getD i (n + 1) hn, soil_depth_getD i n (by omega)]
    push_cast
    ring

/-- Witness for C4: second entry equals first minus the rate at a
concrete input. -/
theorem soil_series_spec_witness :
    (soil_depth ⟨400, 30, .early, false⟩).getD 1 0 =
      (soil_depth ⟨400, 30, .early, false⟩).getD 0 0 -
        erosion_rate ⟨400, 30, .early, false⟩ :=
  (soil_series_spec ⟨400, 30, .early, false⟩ (by norm_num [Input.valid])).2.2 0
    (by norm_num)

/-- C5: for every valid input the erosion rate is 3.0 when the climate
scenario is on and cover < 30, 2.0 when the scenario is off and
cover < 30, and 0.2 when cover ≥ 30 regardless of the scenario. -/
theorem erosion_rate_step (i : Input) (h : i.valid) :
    (i.climate_change = true → i.cover_pct < 30 → erosion_rate i = 3.0) ∧
    (i.climate_change = false → i.cover_pct < 30 → erosion_rate i = 2.0) ∧
    (30 ≤ i.cover_pct → erosion_rate i = 0.2) := by
  refine ⟨?_, ?_, ?_⟩
  · intro hc hlt
    simp [erosion_rate, hc, not_le.mpr hlt]
  · intro hc hlt
    simp [erosion_rate, hc, not_le.mpr hlt]
  · intro hc
    simp [erosion_rate, hc]

/-- Witness for C5 in the climate-on, bare-soil branch. -/
theorem erosion_rate_step_witness :
    erosion_rate ⟨400, 0, .unmowed, true⟩ = 3.0 :=
  (erosion_rate_step ⟨400, 0, .unmowed, true⟩ (by norm_num [Input.valid])).1 rfl
    (by norm_num)

/-- C6: for two valid inputs equal except in cover percentage, the one
with more cover has no more runoff and no more evaporation. -/
theorem cover_antitone (i j : Input) (hi : i.valid) (hj : j.valid)
    (hr : i.rainfall = j.rainfall) (hm : i.mowing_time = j.mowing_time)
    (hc : i.climate_change = j.climate_change) (hcov : i.cover_pct ≤ j.cover_pct) :
    runoff_mm j ≤ runoff_mm i ∧ evap_mm j ≤ evap_mm i := by
  have har : actual_rainfall i = actual_rainfall j := by
    simp [actual_rainfall, hr, hc]
  have h0 : (0 : ℚ) ≤ i.rainfall := le_trans (by norm_num) hi.1
  have har0 : 0 ≤ actual_rainfall i := by
    simp only [actual_rainfall]
    split_ifs
    · exact mul_nonneg h0 (by norm_num)
    · exact h0
  have hred : runoff_reduction i ≤ runoff_reduction j := by
    simp only [runoff_reduction]
    ring_nf
    linarith
  have hfin : final_runoff_pct j ≤ final_runoff_pct i := by
    have hbase : base_runoff_pct i = base_runoff_pct j := by
      simp [base_runoff_pct, hc]
    simp only [final_runoff_pct, ← hbase]
    exact max_le_max le_rfl (by linarith)
  have hsav : evap_savings i ≤ evap_savings j := by
    simp only [evap_savings, ← hm]
    cases i.mowing_time
    · ring_nf
      linarith
    · ring_nf
      linarith
    · exact le_rfl
  constructor
  · simp only [runoff_mm, har]
    exact mul_le_mul_of_nonneg_left hfin (har ▸ har0)
  · simp only [evap_mm]
    exact max_le_max le_rfl (by linarith)

/-- Witness for C6: cover 30 versus cover 50, all else equal. -/
theorem cover_antitone_witness :
    runoff_mm ⟨400, 50, .early, false⟩ ≤ runoff_mm ⟨400, 30, .early, false⟩ ∧
      evap_mm ⟨400, 50, .early, false⟩ ≤ evap_mm ⟨400, 30, .early, false⟩ :=
  cover_antitone ⟨400, 30, .early, false⟩ ⟨400, 50, .early, false⟩
    (by norm_num [Input.valid]) (by norm_num [Input.valid]) rfl rfl rfl (by norm_num)

/-- C7: with the climate flag on the engine uses actualRainfall =
rainfall * 0.9 and baseRunoffPct = 0.30; with it off, actualRainfall =
rainfall and baseRunoffPct = 0.20; so for fixed rainfall, cover and
timing the flag scales actualRainfall by 0.9. -/
theorem climate_adjustment (r c : ℚ) (t : MowingTime) :
    actual_rainfall ⟨r, c, t, true⟩ = r * 0.9 ∧
    base_runoff_pct ⟨r, c, t, true⟩ = 0.30 ∧
    actual_rainfall ⟨r, c, t, false⟩ = r ∧
    base_runoff_pct ⟨r, c, t, false⟩ = 0.20 ∧
    actual_rainfall ⟨r, c, t, true⟩ = 0.9 * actual_rainfall ⟨r, c, t, false⟩ := by
  exact ⟨rfl, rfl, rfl, rfl, mul_comm r 0.9⟩

/-- C8: the net water is the unclamped balance actualRainfall - runoff -
evaporation - transpiration, and at the valid input rainfall=200,
cover=100, Unmowed, climate off it is negative. -/
theorem net_water_no_clamp :
    (∀ i : Input, i.valid →
      net_water i = actual_rainfall i - runoff_mm i - evap_mm i - transp_mm i) ∧
    Input.valid ⟨200, 100, .unmowed, false⟩ ∧
    net_water ⟨200, 100, .unmowed, false⟩ < 0 := by
  refine ⟨fun i _ => rfl, by norm_num [Input.valid], ?_⟩
  norm_num [net_water, actual_rainfall, runoff_mm, final_runoff_pct, base_runoff_pct,
    runoff_reduction, evap_mm, base_evap, evap_savings, transp_mm, max_def]

/-- Witness for C8's balance identity at a concrete valid input. -/
theorem net_water_no_clamp_witness :
    net_water ⟨400, 30, .early, false⟩ =
      actual_rainfall ⟨400, 30, .early, false⟩ - runoff_mm ⟨400, 30, .early, false⟩ -
        evap_mm ⟨400, 30, .early, false⟩ - transp_mm ⟨400, 30, .early, false⟩ :=
  net_water_no_clamp.1 ⟨400, 30, .early, false⟩ (by norm_num [Input.valid])

/-- C9 counterexample: the script has no validation step — at the
out-of-range input rainfall=1000 (slider maximum is 800) the engine
still produces a computed output with ordinary-looking values, so no
validation failure is raised and a computed Output is produced. -/
theorem out_of_range_computes :
    ¬ Input.valid ⟨1000, 50, .unmowed, false⟩ ∧
    (compute ⟨1000, 50, .unmowed, false⟩).net_water = 580 ∧
    (compute ⟨1000, 50, .unmowed, false⟩).yield_kg = 4500 ∧
    (compute ⟨1000, 50, .unmowed, false⟩).erosion_rate = 0.2 := by
  refine ⟨by norm_num [Input.valid], ?_, ?_, ?_⟩ <;>
    norm_num [compute, net_water, actual_rainfall, runoff_mm, final_runoff_pct,
      base_runoff_pct, runoff_reduction, evap_mm, base_evap, evap_savings, transp_mm,
      yield_kg, erosion_rate, max_def]

/-- C9 amended: the engine never rejects; for inputs outside the slider
ranges it computes an output by the very same formulas, e.g. at
rainfall=900, cover=120, Early, climate on. -/
theorem engine_never_rejects :
    ¬ Input.valid ⟨900, 120, .early, true⟩ ∧
    (compute ⟨900, 120, .early, true⟩).actual_rainfall = 810 ∧
    (compute ⟨900, 120, .early, true⟩).runoff_mm = 145.8 ∧
    (compute ⟨900, 120, .early, true⟩).evap_mm = 54 ∧
    (compute ⟨900, 120, .early, true⟩).transp_mm = 168 ∧
    (compute ⟨900, 120, .early, true⟩).net_water = 442.2 ∧
    (compute ⟨900, 120, .early, true⟩).yield_kg = 3122 ∧
    (compute ⟨900, 120, .early, true⟩).erosion_rate = 0.2 := by
  refine ⟨by norm_num [Input.valid], ?_, ?_, ?_, ?_, ?_, ?_, ?_⟩ <;>
    norm_num [compute, net_water, actual_rainfall, runoff_mm, final_runoff_pct,
      base_runoff_pct, runoff_reduction, evap_mm, base_evap, evap_savings, transp_mm,
      yield_kg, erosion_rate, max_def]

/-- C10: for every valid input the erosion rate is one of 0.2, 2.0, 3.0,
hence strictly positive, so consecutive soil depth entries strictly
decrease. -/
theorem erosion_positive_strict (i : Input) (h : i.valid) :
    (erosion_rate i = 0.2 ∨ erosion_rate i = 2.0 ∨ erosion_rate i = 3.0) ∧
    0 < erosion_rate i ∧
    ∀ n : Nat, n + 1 < 20 →
      (soil_depth i).getD (n + 1) 0 < (soil_depth i).getD n 0 := by
  have hcases : erosion_rate i = 0.2 ∨ erosion_rate i = 2.0 ∨ erosion_rate i = 3.0 := by
    simp only [erosion_rate]
    split_ifs <;> norm_num
  have hpos : 0 < erosion_rate i := by
    rcases hcases with h1 | h1 | h1 <;> rw [h1] <;> norm_num
  refine ⟨hcases, hpos, ?_⟩
  intro n hn
  rw [soil_depth_getD i (n + 1) hn, soil_depth_getD i n (by omega)]
  push_cast
  nlinarith [hpos]

/-- Witness for C10: strict decrease from year 1 to year 2 at a concrete
input. -/
theorem erosion_positive_strict_witness :
    (soil_depth ⟨400, 30, .early, false⟩).getD 1 0 <
      (soil_depth ⟨400, 30, .early, false⟩).getD 0 0 :=
  (erosion_positive_strict ⟨400, 30, .early, false⟩ (by norm_num [Input.valid])).2.2 0
    (by norm_num)

end WaterBalance
